import Mathlib

/-!
Shallow embedding of `src/main.py` of the financial-news-reporter
repository, together with theorems settling the frozen claims about it.

Conventions used throughout:
* Dates are integers counting days from an (arbitrary) Monday epoch, so
  `weekday d = d % 7` matches Python's `date.weekday()` (Mon = 0 … Sun = 6).
* Network-facing collaborators (the RSS feed, the article scraper, the
  generative-model service, the Telegram send call) are abstracted as
  oracle functions passed to the embedded functions; the embedding mirrors
  the control flow of the Python source around those calls.
* Python `while` loops are embedded as fuelled recursion; the fuel bound is
  justified by an explicit termination theorem.
-/

namespace NewsReporter

/-! ## Calendar resolution (`check_holidays`, src/main.py lines 15-44) -/

/-- `weekday d` is Python's `date.weekday()` for the date `d` days after the
Monday epoch: `0` = Monday, …, `5` = Saturday, `6` = Sunday. -/
def weekday (d : Int) : Int := d % 7

/-- The `while True` loop of `check_holidays` (src/main.py lines 34-39):
starting at `offset`, walk backward from `today` one day at a time until a
date with `weekday < 5` (Mon-Fri) is found.  Embedded with explicit fuel;
`findPrevWeekday_spec` shows fuel 3 always suffices when starting at
offset 1. -/
def findPrevWeekday (today : Int) : Nat → Int → Option Int
  | 0, _ => none
  | fuel + 1, offset =>
    let prev := today - offset
    if weekday prev < 5 then some prev
    else findPrevWeekday today fuel (offset + 1)

/-- `check_holidays` (src/main.py lines 15-44).  The KR and US (NY) holiday
calendars are abstracted as partial maps from dates to holiday names,
mirroring `holidays.KR()` / `holidays.US(state='NY')`: a date is a holiday
iff the map returns a name, and `.get` returns that name.
Returns `(is_kr_holiday, is_us_holiday_prev_close, holiday_name_kr,
holiday_name_us)`; `none` would mean the backward walk ran out of fuel,
which `findPrevWeekday_spec` shows never happens. -/
def check_holidays (kr us : Int → Option String) (today : Int) :
    Option (Bool × Bool × Option String × Option String) :=
  let is_kr_holiday := (kr today).isSome
  let holiday_name_kr := if is_kr_holiday then kr today else none
  match findPrevWeekday today 3 1 with
  | none => none
  | some prev_date =>
    let is_us_holiday_prev_close := (us prev_date).isSome
    let holiday_name_us := if is_us_holiday_prev_close then us prev_date else none
    some (is_kr_holiday, is_us_holiday_prev_close, holiday_name_kr, holiday_name_us)

/-! ## News query selection (`fetch_news`, src/main.py lines 156-206) -/

/-- Report mode, from `main()`: `weekday` Mon-Fri, `saturday`, `sunday`. -/
inductive Mode where
  | weekday
  | saturday
  | sunday
deriving DecidableEq

/-- The query-selection branching of `fetch_news` (src/main.py lines
162-206): the ordered list of Google-News search queries chosen from
`(mode, is_us_holiday, is_kr_holiday)`. -/
def fetch_news_queries (mode : Mode) (is_us_holiday is_kr_holiday : Bool) :
    List String :=
  match mode with
  | .saturday =>
      ["미국 증시 마감", "주간 해외 증시", "글로벌 경제뉴스"]
  | .sunday =>
      ["주간 증시 정리", "다음주 증시 일정", "다음주 경제 캘린더", "주간 증시 전망"]
  | .weekday =>
      if is_kr_holiday then
        if is_us_holiday then
          ["글로벌 경제뉴스", "해외 증시 요약", "미국 경제 뉴스"]
        else
          ["미국 증시 마감", "글로벌 경제뉴스", "주요 해외 뉴스"]
      else
        if is_us_holiday then
          ["미국 경제 뉴스", "특징주", "국내 증시 전망"]
        else
          ["미국 증시 마감", "특징주", "국내 증시 전망"]

/-! ## News aggregation (`fetch_news`, src/main.py lines 208-242) -/

/-- One RSS feed entry, the fields of `entry` that `fetch_news` reads. -/
structure NewsEntry where
  title : String
  link : String
  published : String
deriving DecidableEq

/-- The success-path article block appended to `combined_news_context`
(src/main.py lines 229-234). -/
def renderArticle (e : NewsEntry) (content : String) : String :=
  "\n\n--- ARTICLE START ---\n" ++
  "Title: " ++ e.title ++ "\n" ++
  "Link: " ++ e.link ++ "\n" ++
  "Date: " ++ e.published ++ "\n" ++
  "Content:\n" ++ content ++ "\n" ++
  "--- ARTICLE END ---\n"

/-- The fallback block appended when scraping fails
(src/main.py line 237). -/
def renderFallback (e : NewsEntry) : String :=
  "\nTitle: " ++ e.title ++ "\nLink: " ++ e.link ++ "\n(Content scraping failed)\n"

/-- What one deduplicated entry contributes to the blob: the scraper
(`scrape_article_content`, abstracted as `scrape`) returns `none` on an
exception; a `None` or empty result takes the fallback branch, mirroring
Python's `if content:` truthiness test (src/main.py line 228). -/
def renderEntry (scrape : String → Option String) (e : NewsEntry) : String :=
  match scrape e.link with
  | some c => if c.isEmpty then renderFallback e else renderArticle e c
  | none => renderFallback e

/-- The inner `for entry in feed.entries[:3]` loop of `fetch_news`
(src/main.py lines 220-237), over one query's candidate entries.
State: `seen` is the `seen_links` set (as a list queried by membership),
`blob` is `combined_news_context`, and `included` instruments the list of
entries that passed deduplication and were appended to the blob.
Returns the updated `(seen, blob, included)`. -/
def processEntries (scrape : String → Option String) :
    List NewsEntry → List String → String → List NewsEntry →
    List String × String × List NewsEntry
  | [], seen, blob, included => (seen, blob, included)
  | e :: es, seen, blob, included =>
    if seen.contains e.link then
      processEntries scrape es seen blob included
    else
      processEntries scrape es (e.link :: seen) (blob ++ renderEntry scrape e)
        (included ++ [e])

/-- The outer `for query in queries` loop of `fetch_news` (src/main.py
lines 213-242).  `feed q` abstracts the RSS fetch + parse for query `q`;
`none` means `requests.get` raised, in which case the `except` clause skips
the query.  Only the top 3 entries of each feed are considered. -/
def fetchNewsLoop (feed : String → Option (List NewsEntry))
    (scrape : String → Option String) :
    List String → List String × String × List NewsEntry →
    List String × String × List NewsEntry
  | [], st => st
  | q :: qs, st =>
    fetchNewsLoop feed scrape qs
      (match feed q with
       | none => st
       | some es => processEntries scrape (es.take 3) st.1 st.2.1 st.2.2)

/-- The state of `fetch_news` after its loop: the `seen_links` set, the
`combined_news_context` blob, and the instrumented list of included
articles, starting from an empty set and empty blob. -/
def fetch_news_state (feed : String → Option (List NewsEntry))
    (scrape : String → Option String) (queries : List String) :
    List String × String × List NewsEntry :=
  fetchNewsLoop feed scrape queries ([], "", [])

/-- `fetch_news`'s return value `combined_news_context`. -/
def fetch_news_context (feed : String → Option (List NewsEntry))
    (scrape : String → Option String) (queries : List String) : String :=
  (fetch_news_state feed scrape queries).2.1

/-- The instrumented list of articles included in the news context, in
discovery order. -/
def fetch_news_included (feed : String → Option (List NewsEntry))
    (scrape : String → Option String) (queries : List String) : List NewsEntry :=
  (fetch_news_state feed scrape queries).2.2

/-- The full candidate stream of a run: for each query in order, the top-3
entries of its feed (none when the fetch raised). -/
def candidateStream (feed : String → Option (List NewsEntry))
    (queries : List String) : List NewsEntry :=
  queries.flatMap (fun q =>
    match feed q with
    | none => []
    | some es => es.take 3)

/-- Modelled from the spec's words for the refinement comparison:
first-occurrence-wins deduplication by link of a candidate stream, given
the links already seen. -/
def dedupByLink : List NewsEntry → List String → List NewsEntry
  | [], _ => []
  | e :: es, seen =>
    if seen.contains e.link then dedupByLink es seen
    else e :: dedupByLink es (e.link :: seen)

/-! ## Generation orchestration (`generate_briefing`, src/main.py lines 456-482) -/

/-- Outcome of one `model.generate_content(prompt)` call: the text on
success, a rate-limit exception (one whose message contains "429"), or any
other exception. -/
inductive GenOutcome where
  | success (text : String)
  | rateLimit
  | failure
deriving DecidableEq

/-- The terminal sentinel returned when every model fails
(src/main.py line 482). -/
def generationFailureSentinel : String :=
  "Error: Failed to generate briefing with all available models."

/-- The model priority list (src/main.py line 457). -/
def models_to_try : List String :=
  ["gemini-2.5-pro", "gemini-2.5-flash", "gemini-2.0-flash"]

/-- The inner `for attempt in range(max_retries)` loop of
`generate_briefing` (src/main.py lines 466-478) for one model whose
attempt outcomes are given by `f`.  Returns the list of attempt indices
actually performed and the generated text if an attempt succeeded:
success returns immediately, a rate-limit outcome retries (consuming one
unit of the `max_retries` fuel), any other failure breaks out of the
loop. -/
def tryModelAttempts (f : Nat → GenOutcome) : Nat → Nat → List Nat × Option String
  | _, 0 => ([], none)
  | attempt, fuel + 1 =>
    match f attempt with
    | .success t => ([attempt], some t)
    | .rateLimit =>
        let r := tryModelAttempts f (attempt + 1) fuel
        (attempt :: r.1, r.2)
    | .failure => ([attempt], none)

/-- The model-fallback loop of `generate_briefing` (src/main.py lines
461-482).  `oracle m a` is the outcome of attempt `a` on model `m`.
Returns the trace of `(model, attempt)` invocations actually made and the
resulting text: the first successful attempt's text, or the sentinel when
the priority list is exhausted. -/
def generate_briefing_models (oracle : String → Nat → GenOutcome) :
    List String → List (String × Nat) × String
  | [] => ([], generationFailureSentinel)
  | m :: ms =>
    let r := tryModelAttempts (oracle m) 0 3
    match r.2 with
    | some t => (r.1.map (fun a => (m, a)), t)
    | none =>
        let rest := generate_briefing_models oracle ms
        (r.1.map (fun a => (m, a)) ++ rest.1, rest.2)

/-! ## Market summary composition (`generate_briefing`, src/main.py lines 258-267)

The Python source formats IEEE floats with `"{:,.2f}"` / `"{:.2f}"`; the
embedding carries exact rationals and formats them with decimal rounding to
two places, grouped thousands for prices. -/

/-- One present market-data entry (src/main.py lines 111-115). -/
structure Quote where
  price : ℚ
  change : ℚ
  pct_change : ℚ
deriving DecidableEq

/-- Two-digit zero-padded rendering of `n < 100`, the fractional part of a
`.2f` format. -/
def pad2 (n : Nat) : String :=
  if n < 10 then "0" ++ toString n else toString n

/-- Three-digit zero-padded rendering of `n < 1000`, one comma group. -/
def pad3 (n : Nat) : String :=
  if n < 10 then "00" ++ toString n
  else if n < 100 then "0" ++ toString n
  else toString n

/-- Grouped-thousands rendering of a natural number, the integer part of a
Python `,` format spec. -/
def groupDigits (n : Nat) : String :=
  if h : n < 1000 then toString n
  else groupDigits (n / 1000) ++ "," ++ pad3 (n % 1000)
decreasing_by exact Nat.div_lt_self (by omega) (by norm_num)

/-- Python's `"{:.2f}"` over an exact rational: round to two decimal
places and render with exactly two fractional digits. -/
def formatTwo (q : ℚ) : String :=
  let n : Int := round (q * 100)
  (if n < 0 then "-" else "") ++
    toString (n.natAbs / 100) ++ "." ++ pad2 (n.natAbs % 100)

/-- Python's `"{:,.2f}"` over an exact rational: like `formatTwo` with
grouped thousands in the integer part. -/
def formatCommaTwo (q : ℚ) : String :=
  let n : Int := round (q * 100)
  (if n < 0 then "-" else "") ++
    groupDigits (n.natAbs / 100) ++ "." ++ pad2 (n.natAbs % 100)

/-- The directional glyph chosen from the sign of the change
(src/main.py line 262). -/
def emojiFor (change : ℚ) : String :=
  if change > 0 then "🔺" else if change < 0 then "🔻" else "➖"

/-- The `for name, data in market_data.items()` loop of `generate_briefing`
(src/main.py lines 260-265): append one line per instrument to the
accumulated summary, a formatted quote line when data is present and an
explicit `Data Unavailable` line otherwise. -/
def marketLines : List (String × Option Quote) → String → String
  | [], acc => acc
  | nd :: rest, acc =>
      marketLines rest
        (match nd.2 with
         | some d =>
             acc ++ ("- " ++ nd.1 ++ ": " ++ formatCommaTwo d.price ++ " (" ++
               emojiFor d.change ++ " " ++ formatTwo d.pct_change ++ "%)\n")
         | none => acc ++ ("- " ++ nd.1 ++ ": Data Unavailable\n"))

/-- The market-summary builder of `generate_briefing` (src/main.py lines
258-267): iterate the snapshot in insertion order, appending one line per
instrument; an empty snapshot (a falsy dict) yields a single
`Data Unavailable` line. -/
def market_summary (market_data : List (String × Option Quote)) : String :=
  let header := "## Market Data Indices\n"
  if market_data.isEmpty then header ++ "Data Unavailable\n"
  else marketLines market_data header

/-- Modelled from the spec's words for the comparison in the market-summary
claim: the line contributed by one instrument. -/
def marketLine : String × Option Quote → String
  | (name, some d) =>
      "- " ++ name ++ ": " ++ formatCommaTwo d.price ++ " (" ++
        emojiFor d.change ++ " " ++ formatTwo d.pct_change ++ "%)\n"
  | (name, none) => "- " ++ name ++ ": Data Unavailable\n"

/-! ## Prompt templates (`generate_briefing`, src/main.py lines 256-454) -/

/-- Python's rendering of an optional string inside an f-string:
`None` renders as the text `None`. -/
def pyStr : Option String → String
  | some s => s
  | none => "None"

/-- `us_holiday_text` (src/main.py line 270). -/
def us_holiday_text (is_us_holiday : Bool) (holiday_name_us : Option String) :
    String :=
  if is_us_holiday then " (미국 휴장: " ++ pyStr holiday_name_us ++ ")" else ""

/-- `kr_holiday_text` (src/main.py line 271). -/
def kr_holiday_text (is_kr_holiday : Bool) (holiday_name_kr : Option String) :
    String :=
  if is_kr_holiday then " (국내 휴장: " ++ pyStr holiday_name_kr ++ ")" else ""

/-- The Saturday `prompt_content` f-string (src/main.py lines 276-304). -/
def saturdayPromptContent (today : String) : String :=
  "\n    <b>📊 " ++ today ++ " 글로벌 증시 주간 요약 보고서</b>\n    \n    <b>🌍 글로벌 시장 상황 (이번 주 마감)</b>\n    <b>지수</b>\n    - (List major US indices: Dow, Nasdaq, S&P500, Russell 2000, Philly Semi with % change)\n    - (Add a one-line comment on the weekly/daily trend)\n    \n    <b>핵심 특징</b>\n    - (Summarize 2-3 key drivers of the US market this week. Use bolding for keywords.)\n    \n    ---\n    \n    <b>🔥 이번 주 글로벌 핫 이슈</b>\n    (Identify 3 key themes/events from the US/Global market)\n    \n    <b>1️⃣ (Theme Title)</b>\n    - <b>(Key Point)</b>: (Detail)\n    <b>결과 및 영향:</b>\n    - (Related stocks or sectors)\n    \n    <b>2️⃣ (Theme Title)</b>\n    ...\n    \n    ---\n    \n    <b>💡 다음 주 글로벌 체크 포인트 (미리보기)</b>\n    - (Briefly mention 1-2 key events expected next week based on news)\n        "

/-- The Sunday `prompt_content` f-string (src/main.py lines 308-343). -/
def sundayPromptContent (today : String) : String :=
  "\n    <b>📅 " ++ today ++ " 이번 주 증시 정리 및 다음 주 전망</b>\n    \n    <b>📉 이번 주 시장 요약 (Review)</b>\n    <b>시장 동향</b>\n    - (Summarize how the Korean and US markets performed this past week)\n    - (Mention key indices changes if available in context)\n    \n    <b>주요 이슈 점검</b>\n    - (List 2-3 major economic events or news from the past week)\n    \n    ---\n    \n    <b>🗓️ 다음 주 증시 일정 (Preview)</b>\n    (Based on news articles about \"Next Week Schedule\")\n    \n    <b>주요 경제 지표 발표</b>\n    - (List expected events/announcements with dates if possible)\n    \n    <b>주요 기업 실적 발표</b>\n    - (List expected earnings releases)\n    \n    ---\n    \n    <b>👀 다음 주 관전 포인트</b>\n    <b>1. (Point 1)</b>\n    - (Explanation)\n    \n    <b>2. (Point 2)</b>\n    - (Explanation)\n    \n    ---\n    \n    <b>🎯 다음 주 대응 전략</b>\n    - (General investment strategy advice for the upcoming week)\n        "

/-- The weekday `header` f-string (src/main.py line 349). -/
def weekdayHeader (today : String) (is_kr_holiday : Bool)
    (holiday_name_kr : Option String) : String :=
  "<b>📊 " ++ today ++ " 한국 증시 종합 전망 보고서" ++
    kr_holiday_text is_kr_holiday holiday_name_kr ++ "</b>"

/-- The weekday `us_section` (src/main.py lines 352-367). -/
def usSection (is_us_holiday : Bool) (holiday_name_us : Option String) :
    String :=
  if is_us_holiday then
    "\n    <b>🌍 글로벌 시장 상황 (미국 휴장: " ++ pyStr holiday_name_us ++
      ")</b>\n    - <b>미국 증시는 \u0027" ++ pyStr holiday_name_us ++
      "\u0027로 인해 휴장했습니다.</b>\n    - (Instead, summarize any major European or Global economic news if available, or skip with a brief mention.)\n            "
  else
    "\n    <b>🌍 글로벌 시장 상황 (미 증시)</b>\n    <b>지수</b>\n    - (List major US indices: Dow, Nasdaq, S&P500, Russell 2000, Philly Semi with % change)\n    - (Add a one-line comment on the overall vibe)\n    \n    <b>핵심 특징</b>\n    - (Summarize 2-3 key drivers. Use bolding for keywords.)\n            "

/-- The weekday `kr_section` (src/main.py lines 370-387). -/
def krSection (is_kr_holiday : Bool) (holiday_name_kr : Option String) :
    String :=
  if is_kr_holiday then
    "\n    <b>🇰🇷 한국 증시 상황 (휴장: " ++ pyStr holiday_name_kr ++
      ")</b>\n    - <b>오늘은 \u0027" ++ pyStr holiday_name_kr ++
      "\u0027로 인해 한국 증시가 휴장합니다.</b>\n    - (Do NOT provide a specific forecast range or hot themes for trading today.)\n    - (Instead, briefly summarize the overall sentiment or recent trend leading into the holiday.)\n            "
  else
    "\n    <b>🇰🇷 한국 증시 오늘 전망</b>\n    <b>예상 범위</b>\n    <b>코스피: (Estimate a range)</b>\n            "

/-- The weekday `extra_section` (src/main.py lines 378-412). -/
def extraSection (is_kr_holiday : Bool) : String :=
  if is_kr_holiday then
    "\n    <b>💡 휴장일 체크 포인트</b>\n    - (Any major global events to watch during the holiday)\n            "
  else
    "\n    <b>🚀 오늘의 최강 테마 (우선순위)</b>\n    \n    <b>🥇 1순위: (Sector Name)</b>\n    <b>(Catchy Slogan)</b>\n    <b>관련주:</b>\n    - (List stocks)\n    <b>호재:</b>\n    - (Why this sector?)\n    \n    <b>🥈 2순위: (Sector Name)</b>\n    ...\n    \n    ---\n    \n    <b>🎯 매매 전략 (종합)</b>\n    <b>🟢 공격적 매수</b>\n    - (Sectors/Stocks)\n    \n    <b>🟡 관망/보유</b>\n    - (Sectors)\n    \n    <b>🔴 주의/매도</b>\n    - (Sectors)\n            "

/-- The weekday `prompt_content` f-string (src/main.py lines 414-431). -/
def weekdayPromptContent (is_us_holiday is_kr_holiday : Bool)
    (holiday_name_kr holiday_name_us : Option String) (today : String) :
    String :=
  "\n    " ++ weekdayHeader today is_kr_holiday holiday_name_kr ++
  "\n    \n    " ++ usSection is_us_holiday holiday_name_us ++
  "\n    \n    ---\n    \n    " ++
  (if !is_kr_holiday then extraSection is_kr_holiday else "") ++
  "\n    \n    " ++ krSection is_kr_holiday holiday_name_kr ++
  "\n    \n    ---\n    \n    " ++
  (if is_kr_holiday then extraSection is_kr_holiday else "") ++
  "\n    \n    <b>🎬 결론</b>\n    (One sentence summary)\n        "

/-- The `prompt_content` selection of `generate_briefing`
(src/main.py lines 273-431). -/
def prompt_content (mode : Mode) (is_us_holiday is_kr_holiday : Bool)
    (holiday_name_kr holiday_name_us : Option String) (today : String) :
    String :=
  match mode with
  | .saturday => saturdayPromptContent today
  | .sunday => sundayPromptContent today
  | .weekday =>
      weekdayPromptContent is_us_holiday is_kr_holiday holiday_name_kr
        holiday_name_us today

/-- The final `prompt` f-string of `generate_briefing`
(src/main.py lines 433-454). -/
def generate_briefing_prompt (mode : Mode) (is_us_holiday is_kr_holiday : Bool)
    (holiday_name_kr holiday_name_us : Option String) (today : String)
    (market_data : List (String × Option Quote)) (news_context : String) :
    String :=
  "\n    You are a top-tier Financial Analyst.\n    Based on the provided Market Data and News Articles, write a Report.\n    \n    **Format Requirements (Strictly Follow This Structure)**:\n    " ++
  prompt_content mode is_us_holiday is_kr_holiday holiday_name_kr
    holiday_name_us today ++
  "\n    \n    **Input Data:**\n    " ++ market_summary market_data ++
  "\n    \n    " ++ news_context ++
  "\n    \n    **Instructions:**\n    - **Language**: Korean.\n    - **Formatting**:\n        - Use ONLY these Telegram-supported HTML tags: <b>, <i>, <u>, <s>, <code>, <pre>, <a href=\"...\">.\n        - **FORBIDDEN TAGS**: <p>, <ul>, <ol>, <li>, <div>, <span>, <font>, <br>, <h1>..<h6>. DO NOT USE THESE.\n        - **Lists**: Use hyphens (-) or emojis for lists. Do NOT use <ul>/<li>.\n        - **Newlines**: Use actual newlines instead of <br> or <p>.\n        - **Colors**: Do NOT use <font color=\"...\">. Use emojis like 🔴 (Red/Up/Hot) or 🔵 (Blue/Cool/Down) or 🔻/🔺 to represent direction/sentiment.\n    - **Specifics**: Use ACTUAL numbers from the articles.\n    "

/-! ## Substring reasoning helpers

`NotInFlattened p pieces` is a decidable sufficient condition for the
pattern `p` not occurring in the concatenation of `pieces`: `p` occurs in
no single piece and does not straddle any piece boundary.  It lets the
absence of a phrase be checked piecewise on the (short) template sections
instead of on the whole composed prompt. -/

/-- Piecewise no-occurrence: the pattern is not an infix of any piece and
no proper suffix of a piece extends to the pattern across the boundary. -/
def NotInFlattened (p : List Char) : List (List Char) → Prop
  | [] => True
  | x :: rest =>
      ¬ p <:+: x ∧
      (∀ k, k < p.length → 0 < k →
        ¬ p <+: (x.drop (x.length - k) ++ rest.flatten)) ∧
      NotInFlattened p rest

instance notInFlattenedDecidable (p : List Char) :
    ∀ pieces : List (List Char), Decidable (NotInFlattened p pieces)
  | [] => isTrue trivial
  | x :: rest =>
      haveI := notInFlattenedDecidable p rest
      show Decidable (¬ p <:+: x ∧ _ ∧ NotInFlattened p rest) from
        inferInstance

/-- The pieces whose concatenation is the weekday KR-holiday prompt
template at the concrete date `01/01(Wed)` and holiday name `신정`. -/
def piecesC5 : List (List Char) :=
  ["\n    ".data,
   (weekdayHeader "01/01(Wed)" true (some "신정")).data,
   "\n    \n    ".data,
   (usSection false none).data,
   "\n    \n    ---\n    \n    ".data,
   "\n    \n    ".data,
   (krSection true (some "신정")).data,
   "\n    \n    ---\n    \n    ".data,
   (extraSection true).data,
   "\n    \n    <b>🎬 결론</b>\n    (One sentence summary)\n        ".data]

/-! ## Telegram delivery (`send_telegram_message`, src/main.py lines 485-528) -/

/-- Outcome of one `requests.post` + `raise_for_status` to the Telegram
API: success, an `HTTPError` with the response's status code, or a
non-HTTP `RequestException`. -/
inductive SendResult where
  | ok
  | httpError (status : Nat)
  | requestError
deriving DecidableEq

/-- `send_telegram_message` (src/main.py lines 485-528).  `hasCreds` is
whether both `TELEGRAM_BOT_TOKEN` and `TELEGRAM_CHANNEL_ID` are set;
`send html` abstracts the POST, where `html` tells whether the payload
still carries `parse_mode = "HTML"`.  Returns the list of sends actually
performed (their `html` flags, in order) and the function's boolean
result: `true` on a successful delivery.  A 400 `HTTPError` on the HTML
send triggers exactly one plain-text retry; every other failure—of either
send—returns `false` without raising. -/
def send_telegram_message (hasCreds : Bool) (send : Bool → SendResult) :
    List Bool × Bool :=
  if !hasCreds then ([], false)
  else
    match send true with
    | .ok => ([true], true)
    | .httpError status =>
        if status = 400 then
          match send false with
          | .ok => ([true, false], true)
          | _ => ([true, false], false)
        else ([true], false)
    | .requestError => ([true], false)

/-! ## Concrete fixtures used by witness theorems -/

/-- Oracle instantiating the C1 scenario: the first model always
rate-limits, the second succeeds, the third fails. -/
def oracleC1 : String → Nat → GenOutcome := fun m _ =>
  if m = "gemini-2.5-pro" then GenOutcome.rateLimit
  else if m = "gemini-2.5-flash" then GenOutcome.success "briefing-from-flash"
  else GenOutcome.failure

/-- Oracle for the C2 witness: every attempt raises a non-rate-limit
failure. -/
def oracleAllFail : String → Nat → GenOutcome := fun _ _ => GenOutcome.failure

/-- Send oracle for the C9 witness: the HTML send is rejected with a 400,
the plain-text retry succeeds. -/
def sendC9 : Bool → SendResult := fun html =>
  if html then SendResult.httpError 400 else SendResult.ok

/-- A concrete feed entry whose content extraction will fail. -/
def entryC8 : NewsEntry := ⟨"T", "L", "2025-12-31"⟩

/-- A feed serving exactly that one entry for every query. -/
def feedC8 : String → Option (List NewsEntry) := fun _ => some [entryC8]

/-- A scraper that always fails (raises / returns `None`). -/
def scrapeNone : String → Option String := fun _ => none

/-! ## Shared lemmas -/

/-- `String.join` distributes over cons. -/
lemma string_join_cons (a : String) (l : List String) :
    String.join (a :: l) = a ++ String.join l := by
  apply String.ext
  simp [String.data_join, String.data_append]

/-- The market-summary loop appends exactly one line per instrument, in
order. -/
lemma marketLines_eq (l : List (String × Option Quote)) (acc : String) :
    marketLines l acc = acc ++ String.join (l.map marketLine) := by
  induction l generalizing acc with
  | nil => simp [marketLines, String.join, String.append_empty]
  | cons nd rest ih =>
    have hline :
        (match nd.2 with
         | some d =>
             acc ++ ("- " ++ nd.1 ++ ": " ++ formatCommaTwo d.price ++ " (" ++
               emojiFor d.change ++ " " ++ formatTwo d.pct_change ++ "%)\n")
         | none => acc ++ ("- " ++ nd.1 ++ ": Data Unavailable\n")) =
          acc ++ marketLine nd := by
      rcases nd with ⟨name, _ | q⟩ <;> rfl
    rw [marketLines, hline, ih, List.map_cons, string_join_cons,
      String.append_assoc]

/-- If no attempt in the window succeeds, the per-model retry loop yields
no text. -/
lemma tryModelAttempts_snd_none (f : Nat → GenOutcome) (attempt fuel : Nat)
    (h : ∀ a, attempt ≤ a → a < attempt + fuel →
        f a = GenOutcome.rateLimit ∨ f a = GenOutcome.failure) :
    (tryModelAttempts f attempt fuel).2 = none := by
  induction fuel generalizing attempt with
  | zero => rfl
  | succ n ih =>
    rcases h attempt (le_refl _) (by omega) with hr | hf
    · simp only [tryModelAttempts, hr]
      exact ih (attempt + 1) (fun a ha hb => h a (by omega) (by omega))
    · simp [tryModelAttempts, hf]

/-- If every model fails on every attempt, the fallback loop returns the
sentinel. -/
lemma generate_briefing_models_all_fail (oracle : String → Nat → GenOutcome)
    (ms : List String)
    (h : ∀ m ∈ ms, ∀ a, a < 3 →
        oracle m a = GenOutcome.rateLimit ∨ oracle m a = GenOutcome.failure) :
    (generate_briefing_models oracle ms).2 = generationFailureSentinel := by
  induction ms with
  | nil => rfl
  | cons m ms ih =>
    have hm : (tryModelAttempts (oracle m) 0 3).2 = none :=
      tryModelAttempts_snd_none _ 0 3
        (fun a _ hb => h m (by simp) a (by omega))
    simp only [generate_briefing_models]
    rw [hm]
    exact ih (fun m' hm' a ha => h m' (by simp [hm']) a ha)

/-- `String.join` distributes over append. -/
lemma string_join_append (l₁ l₂ : List String) :
    String.join (l₁ ++ l₂) = String.join l₁ ++ String.join l₂ := by
  apply String.ext
  simp [String.data_join, String.data_append]

/-- Closed form of the per-query entry loop: it extends the seen set by
the links of the newly deduplicated entries, appends their renderings to
the blob, and appends them to the included list. -/
lemma processEntries_eq (scrape : String → Option String) :
    ∀ (es : List NewsEntry) (seen : List String) (blob : String)
      (inc : List NewsEntry),
      processEntries scrape es seen blob inc =
        (((dedupByLink es seen).map (fun e => e.link)).reverse ++ seen,
         blob ++ String.join ((dedupByLink es seen).map (renderEntry scrape)),
         inc ++ dedupByLink es seen) := by
  intro es
  induction es with
  | nil =>
    intro seen blob inc
    simp [processEntries, dedupByLink, String.join, String.append_empty]
  | cons e es ih =>
    intro seen blob inc
    cases hc : seen.contains e.link with
    | true =>
      simp only [processEntries, hc, if_pos, dedupByLink]
      exact ih seen blob inc
    | false =>
      simp only [processEntries, hc, Bool.false_eq_true, if_false,
        dedupByLink]
      rw [ih]
      refine Prod.ext ?_ (Prod.ext ?_ ?_) <;>
        simp [List.reverse_cons, List.append_assoc, string_join_cons,
          String.append_assoc]

/-- First-wins deduplication splits over append of candidate streams. -/
lemma dedupByLink_append (bs : List NewsEntry) :
    ∀ (as : List NewsEntry) (seen : List String),
      dedupByLink (as ++ bs) seen =
        dedupByLink as seen ++
          dedupByLink bs
            (((dedupByLink as seen).map (fun e => e.link)).reverse ++ seen) := by
  intro as
  induction as with
  | nil => intro seen; simp [dedupByLink]
  | cons a as ih =>
    intro seen
    cases hc : seen.contains a.link with
    | true => simp only [List.cons_append, dedupByLink, hc, if_pos]; exact ih seen
    | false =>
      simp only [List.cons_append, dedupByLink, hc, Bool.false_eq_true,
        if_false, List.append_eq]
      rw [ih (a.link :: seen)]
      simp [List.reverse_cons, List.append_assoc]

/-- Closed form of the whole query loop. -/
lemma fetchNewsLoop_eq (feed : String → Option (List NewsEntry))
    (scrape : String → Option String) :
    ∀ (qs : List String) (seen : List String) (blob : String)
      (inc : List NewsEntry),
      fetchNewsLoop feed scrape qs (seen, blob, inc) =
        (((dedupByLink (candidateStream feed qs) seen).map
            (fun e => e.link)).reverse ++ seen,
         blob ++ String.join ((dedupByLink (candidateStream feed qs) seen).map
            (renderEntry scrape)),
         inc ++ dedupByLink (candidateStream feed qs) seen) := by
  intro qs
  induction qs with
  | nil =>
    intro seen blob inc
    simp [fetchNewsLoop, candidateStream, dedupByLink, String.join,
      String.append_empty]
  | cons q qs ih =>
    intro seen blob inc
    have hcand : candidateStream feed (q :: qs) =
        (match feed q with
         | none => []
         | some es => es.take 3) ++ candidateStream feed qs := by
      simp [candidateStream]
    cases hq : feed q with
    | none =>
      simp only [fetchNewsLoop, hq]
      rw [ih seen blob inc, hcand, hq]
      simp
    | some es =>
      simp only [fetchNewsLoop, hq]
      rw [processEntries_eq, ih, hcand, hq]
      rw [dedupByLink_append]
      refine Prod.ext ?_ (Prod.ext ?_ ?_) <;>
        simp [List.reverse_append, List.append_assoc, string_join_append,
          String.append_assoc]

/-- The final state of `fetch_news`. -/
lemma fetch_news_state_eq (feed : String → Option (List NewsEntry))
    (scrape : String → Option String) (queries : List String) :
    fetch_news_state feed scrape queries =
      (((dedupByLink (candidateStream feed queries) []).map
          (fun e => e.link)).reverse,
       String.join ((dedupByLink (candidateStream feed queries) []).map
          (renderEntry scrape)),
       dedupByLink (candidateStream feed queries) []) := by
  rw [fetch_news_state, fetchNewsLoop_eq]
  simp [String.empty_append]

/-- Every entry surviving deduplication has a link not already seen. -/
lemma dedupByLink_contains_false :
    ∀ (es : List NewsEntry) (seen : List String) (e : NewsEntry),
      e ∈ dedupByLink es seen → seen.contains e.link = false := by
  intro es
  induction es with
  | nil => intro seen e h; simp [dedupByLink] at h
  | cons a as ih =>
    intro seen e h
    cases hc : seen.contains a.link with
    | true =>
      rw [dedupByLink, hc, if_pos rfl] at h
      exact ih seen e h
    | false =>
      rw [dedupByLink, hc] at h
      simp only [Bool.false_eq_true, if_false, List.mem_cons] at h
      rcases h with rfl | h
      · exact hc
      · have := ih (a.link :: seen) e h
        simp only [List.contains_cons, Bool.or_eq_false_iff] at this
        exact this.2

/-- Deduplicated entries have pairwise-distinct links. -/
lemma dedupByLink_pairwise :
    ∀ (es : List NewsEntry) (seen : List String),
      (dedupByLink es seen).Pairwise (fun a b => a.link ≠ b.link) := by
  intro es
  induction es with
  | nil => intro seen; simp [dedupByLink]
  | cons a as ih =>
    intro seen
    cases hc : seen.contains a.link with
    | true => rw [dedupByLink, hc, if_pos rfl]; exact ih seen
    | false =>
      rw [dedupByLink, hc]
      simp only [Bool.false_eq_true, if_false]
      refine List.Pairwise.cons ?_ (ih (a.link :: seen))
      intro b hb
      have := dedupByLink_contains_false as (a.link :: seen) b hb
      simp only [List.contains_cons, Bool.or_eq_false_iff, beq_eq_false_iff_ne,
        ne_eq] at this
      exact fun hab => this.1 (hab ▸ rfl)

/-- Deduplication preserves the order of the candidate stream. -/
lemma dedupByLink_sublist :
    ∀ (es : List NewsEntry) (seen : List String),
      (dedupByLink es seen).Sublist es := by
  intro es
  induction es with
  | nil => intro seen; simp [dedupByLink]
  | cons a as ih =>
    intro seen
    cases hc : seen.contains a.link with
    | true =>
      rw [dedupByLink, hc, if_pos rfl]
      exact List.Sublist.cons a (ih seen)
    | false =>
      rw [dedupByLink, hc]
      simp only [Bool.false_eq_true, if_false]
      exact List.Sublist.cons₂ a (ih (a.link :: seen))

/-- An infix of an append is an infix of one side, or straddles the
boundary as the extension of a short suffix of the left part. -/
lemma infix_append_cases {α : Type} (p y : List α) :
    ∀ x : List α, p <:+: x ++ y →
      p <:+: x ∨ p <:+: y ∨
        ∃ s : List α, s <:+ x ∧ s.length < p.length ∧ 0 < s.length ∧
          p <+: s ++ y := by
  intro x
  induction x with
  | nil => intro h; right; left; simpa using h
  | cons a x' ih =>
    intro h
    rw [List.cons_append, List.infix_cons_iff] at h
    rcases h with hpre | hinf
    · by_cases hl : p.length ≤ (a :: x').length
      · left
        have hp : p = ((a :: x') ++ y).take p.length :=
          List.prefix_iff_eq_take.mp (by simpa using hpre)
        rw [List.take_append_of_le_length hl] at hp
        exact (hp ▸ List.take_prefix _ _).isInfix
      · right; right
        exact ⟨a :: x', List.suffix_refl _, by simp at hl ⊢; omega, by simp,
          by simpa using hpre⟩
    · rcases ih hinf with h1 | h2 | ⟨s, hs, h3, h4, h5⟩
      · exact Or.inl (List.infix_cons h1)
      · exact Or.inr (Or.inl h2)
      · exact Or.inr (Or.inr ⟨s, hs.trans (List.suffix_cons a x'), h3, h4, h5⟩)

/-- Soundness of the piecewise check: a nonempty pattern satisfying
`NotInFlattened` does not occur in the concatenation. -/
lemma not_infix_flatten (p : List Char) (hp : p ≠ []) :
    ∀ pieces : List (List Char), NotInFlattened p pieces →
      ¬ p <:+: pieces.flatten := by
  intro pieces
  induction pieces with
  | nil =>
    intro _ h
    rw [List.flatten_nil] at h
    exact hp (List.eq_nil_of_infix_nil h)
  | cons x rest ih =>
    rintro ⟨h1, h2, h3⟩ hinf
    rw [List.flatten_cons] at hinf
    rcases infix_append_cases p rest.flatten x hinf with
      hx | hy | ⟨s, hs, hlen, hpos, hpre⟩
    · exact h1 hx
    · exact ih h3 hy
    · have hsx : s = x.drop (x.length - s.length) := by
        obtain ⟨u, rfl⟩ := hs
        simp [List.length_append, Nat.add_sub_cancel, List.drop_left]
      exact h2 s.length hlen hpos (hsx ▸ hpre)

/-- The character data of the empty string. -/
lemma string_data_empty : ("" : String).data = [] := rfl

/-- The weekday KR-holiday prompt at the concrete date and holiday name is
the concatenation of `piecesC5`. -/
lemma promptC5_data :
    (prompt_content Mode.weekday false true (some "신정") none
        "01/01(Wed)").data = piecesC5.flatten := by
  simp [prompt_content, weekdayPromptContent, piecesC5, String.data_append,
    List.flatten, string_data_empty, List.append_assoc]

/-- Full characterization of the backward walk with fuel 3 starting at
offset 1: it finds the most recent weekday strictly before `today`, and on
a Monday that is `today - 3`. -/
lemma findPrevWeekday_spec (today : Int) :
    ∃ prev : Int,
      findPrevWeekday today 3 1 = some prev ∧
      prev < today ∧ weekday prev < 5 ∧
      (∀ d : Int, prev < d → d < today → ¬ weekday d < 5) ∧
      (weekday today = 0 → prev = today - 3) := by
  have h7 : today % 7 = 0 ∨ today % 7 = 1 ∨ today % 7 = 2 ∨
      today % 7 = 3 ∨ today % 7 = 4 ∨ today % 7 = 5 ∨
      today % 7 = 6 := by omega
  rcases h7 with hr | hr | hr | hr | hr | hr | hr
  · have c1 : ¬ (today - 1) % 7 < 5 := by omega
    have c2 : ¬ (today - 2) % 7 < 5 := by omega
    have c3 : (today - 3) % 7 < 5 := by omega
    exact ⟨today - 3, by simp [findPrevWeekday, weekday, c1, c2, c3],
      by omega, by simp only [weekday]; omega,
      fun d h1 h2 => by simp only [weekday]; omega, fun _ => rfl⟩
  · have c1 : (today - 1) % 7 < 5 := by omega
    exact ⟨today - 1, by simp [findPrevWeekday, weekday, c1],
      by omega, by simp only [weekday]; omega,
      fun d h1 h2 => by simp only [weekday]; omega,
      fun h => by simp only [weekday] at h; omega⟩
  · have c1 : (today - 1) % 7 < 5 := by omega
    exact ⟨today - 1, by simp [findPrevWeekday, weekday, c1],
      by omega, by simp only [weekday]; omega,
      fun d h1 h2 => by simp only [weekday]; omega,
      fun h => by simp only [weekday] at h; omega⟩
  · have c1 : (today - 1) % 7 < 5 := by omega
    exact ⟨today - 1, by simp [findPrevWeekday, weekday, c1],
      by omega, by simp only [weekday]; omega,
      fun d h1 h2 => by simp only [weekday]; omega,
      fun h => by simp only [weekday] at h; omega⟩
  · have c1 : (today - 1) % 7 < 5 := by omega
    exact ⟨today - 1, by simp [findPrevWeekday, weekday, c1],
      by omega, by simp only [weekday]; omega,
      fun d h1 h2 => by simp only [weekday]; omega,
      fun h => by simp only [weekday] at h; omega⟩
  · have c1 : (today - 1) % 7 < 5 := by omega
    exact ⟨today - 1, by simp [findPrevWeekday, weekday, c1],
      by omega, by simp only [weekday]; omega,
      fun d h1 h2 => by simp only [weekday]; omega,
      fun h => by simp only [weekday] at h; omega⟩
  · have c1 : ¬ (today - 1) % 7 < 5 := by omega
    have c2 : (today - 2) % 7 < 5 := by omega
    exact ⟨today - 2, by simp [findPrevWeekday, weekday, c1, c2],
      by omega, by simp only [weekday]; omega,
      fun d h1 h2 => by simp only [weekday]; omega,
      fun h => by simp only [weekday] at h; omega⟩

/-- The fuelled walk is stable under extra fuel once it has found a
result. -/
lemma findPrevWeekday_mono (today : Int) :
    ∀ (f : Nat) (o : Int) (p : Int), findPrevWeekday today f o = some p →
      ∀ g : Nat, f ≤ g → findPrevWeekday today g o = some p := by
  intro f
  induction f with
  | zero => intro o p h; exact absurd h (by simp [findPrevWeekday])
  | succ n ih =>
    intro o p h g hg
    obtain ⟨g', rfl⟩ : ∃ g', g = g' + 1 := ⟨g - 1, by omega⟩
    simp only [findPrevWeekday] at h ⊢
    by_cases hc : weekday (today - o) < 5
    · rw [if_pos hc] at h ⊢; exact h
    · rw [if_neg hc] at h ⊢
      exact ih (o + 1) p h g' (by omega)

/-! ## Claim theorems -/

/-- C4: query selection is a pure function of
`(mode, isKrHoliday, isUsHolidayPrevClose)` with exactly six states:
SATURDAY yields a fixed ordered list of 3 queries and SUNDAY a fixed
ordered list of 4 queries regardless of the holiday flags, and the four
WEEKDAY flag combinations each yield their own fixed ordered list of 3
queries, order fixed. -/
theorem claim_C4_query_selection :
    (∀ is_us is_kr : Bool,
      fetch_news_queries Mode.saturday is_us is_kr =
        ["미국 증시 마감", "주간 해외 증시", "글로벌 경제뉴스"] ∧
      fetch_news_queries Mode.sunday is_us is_kr =
        ["주간 증시 정리", "다음주 증시 일정", "다음주 경제 캘린더", "주간 증시 전망"]) ∧
    fetch_news_queries Mode.weekday true true =
      ["글로벌 경제뉴스", "해외 증시 요약", "미국 경제 뉴스"] ∧
    fetch_news_queries Mode.weekday false true =
      ["미국 증시 마감", "글로벌 경제뉴스", "주요 해외 뉴스"] ∧
    fetch_news_queries Mode.weekday true false =
      ["미국 경제 뉴스", "특징주", "국내 증시 전망"] ∧
    fetch_news_queries Mode.weekday false false =
      ["미국 증시 마감", "특징주", "국내 증시 전망"] :=
  ⟨fun _ _ => ⟨rfl, rfl⟩, rfl, rfl, rfl, rfl⟩

/-- C1: if every attempt on the first model rate-limits up to the attempt
limit (3) and the second model succeeds on its first attempt, the
generation loop returns the second model's text and the third model is
never invoked; in general a successful attempt returns its text
immediately with no further models tried, and a non-rate-limit failure
abandons the current model's remaining retries and advances to the next
model. -/
theorem claim_C1_generation_priority (oracle : String → Nat → GenOutcome)
    (t : String)
    (hA : ∀ a, a < 3 → oracle "gemini-2.5-pro" a = GenOutcome.rateLimit)
    (hB : oracle "gemini-2.5-flash" 0 = GenOutcome.success t) :
    (generate_briefing_models oracle models_to_try).2 = t ∧
    (∀ p ∈ (generate_briefing_models oracle models_to_try).1,
        p.1 ≠ "gemini-2.0-flash") ∧
    (∀ (orc : String → Nat → GenOutcome) (m : String) (ms : List String)
        (u : String), orc m 0 = GenOutcome.success u →
        generate_briefing_models orc (m :: ms) = ([(m, 0)], u)) ∧
    (∀ (orc : String → Nat → GenOutcome) (m : String) (ms : List String),
        orc m 0 = GenOutcome.failure →
        generate_briefing_models orc (m :: ms) =
          ((m, 0) :: (generate_briefing_models orc ms).1,
            (generate_briefing_models orc ms).2)) := by
  have h0 := hA 0 (by norm_num)
  have h1 := hA 1 (by norm_num)
  have h2 := hA 2 (by norm_num)
  have hrun : generate_briefing_models oracle models_to_try =
      ([("gemini-2.5-pro", 0), ("gemini-2.5-pro", 1), ("gemini-2.5-pro", 2),
        ("gemini-2.5-flash", 0)], t) := by
    simp [models_to_try, generate_briefing_models, tryModelAttempts, h0, h1,
      h2, hB]
  have hfst : (generate_briefing_models oracle models_to_try).1 =
      [("gemini-2.5-pro", 0), ("gemini-2.5-pro", 1), ("gemini-2.5-pro", 2),
        ("gemini-2.5-flash", 0)] := by rw [hrun]
  refine ⟨by rw [hrun], by rw [hfst]; decide, ?_, ?_⟩
  · intro orc m ms u hu
    simp [generate_briefing_models, tryModelAttempts, hu]
  · intro orc m ms hf
    simp [generate_briefing_models, tryModelAttempts, hf]

/-- Witness evaluating C1 on a concrete oracle. -/
theorem claim_C1_generation_priority_witness :
    (generate_briefing_models oracleC1 models_to_try).2 =
      "briefing-from-flash" :=
  (claim_C1_generation_priority oracleC1 "briefing-from-flash"
    (fun _ _ => rfl) rfl).1

/-- C2: if every model in the priority list fails on every attempt, for
any mix of rate-limit and non-rate-limit failures, the generation loop
returns the terminal explicit-failure sentinel string as a normal value. -/
theorem claim_C2_generation_exhaustion (oracle : String → Nat → GenOutcome)
    (h : ∀ m ∈ models_to_try, ∀ a, a < 3 →
        oracle m a = GenOutcome.rateLimit ∨ oracle m a = GenOutcome.failure) :
    (generate_briefing_models oracle models_to_try).2 =
      generationFailureSentinel :=
  generate_briefing_models_all_fail oracle models_to_try h

/-- Witness evaluating C2 on a concrete oracle. -/
theorem claim_C2_generation_exhaustion_witness :
    (generate_briefing_models oracleAllFail models_to_try).2 =
      generationFailureSentinel :=
  claim_C2_generation_exhaustion oracleAllFail (fun _ _ _ _ => Or.inr rfl)

/-- C9: with credentials present the first send uses rich markup; a retry
(with markup removed) happens iff the first send fails with an HTTP 400;
success of either send yields `true`, and any other failure—of the first
send or of the plain-text retry—yields `false` without raising. -/
theorem claim_C9_delivery_fallback (send : Bool → SendResult) :
    (send_telegram_message true send).1.head? = some true ∧
    ((send_telegram_message true send).1.length = 2 ↔
      send true = SendResult.httpError 400) ∧
    (send true = SendResult.ok →
      send_telegram_message true send = ([true], true)) ∧
    (send true = SendResult.httpError 400 →
      (send false = SendResult.ok →
        send_telegram_message true send = ([true, false], true)) ∧
      (send false ≠ SendResult.ok →
        send_telegram_message true send = ([true, false], false))) ∧
    (∀ s : Nat, s ≠ 400 → send true = SendResult.httpError s →
      send_telegram_message true send = ([true], false)) ∧
    (send true = SendResult.requestError →
      send_telegram_message true send = ([true], false)) := by
  rcases h1 : send true with _ | s | _
  · simp [send_telegram_message, h1]
  · by_cases hs : s = 400
    · subst hs
      rcases h2 : send false with _ | s2 | _ <;>
        simp [send_telegram_message, h1, h2] <;> omega
    · simp [send_telegram_message, h1, hs]
  · simp [send_telegram_message, h1]

/-- Witness evaluating C9 on a concrete send oracle. -/
theorem claim_C9_delivery_fallback_witness :
    send_telegram_message true sendC9 = ([true, false], true) :=
  ((claim_C9_delivery_fallback sendC9).2.2.2.1 rfl).1 rfl

/-- C7: the market summary enumerates every configured instrument label
exactly once in the snapshot's insertion order — it is the header followed
by the concatenation, over the snapshot in order, of one line per
instrument; a present entry's line is the grouped-thousands two-decimal
price and two-decimal percent change with a directional glyph chosen by
the sign of the change (up/down/flat), and an absent entry's line is an
explicit data-unavailable line. -/
theorem claim_C7_market_summary (md : List (String × Option Quote)) :
    market_summary md = "## Market Data Indices\n" ++
      (if md.isEmpty then "Data Unavailable\n"
       else String.join (md.map marketLine)) ∧
    (md.map marketLine).length = md.length ∧
    (∀ (name : String) (q : Quote),
      marketLine (name, some q) =
        "- " ++ name ++ ": " ++ formatCommaTwo q.price ++ " (" ++
          emojiFor q.change ++ " " ++ formatTwo q.pct_change ++ "%)\n") ∧
    (∀ name : String,
      marketLine (name, none) = "- " ++ name ++ ": Data Unavailable\n") ∧
    (∀ c : ℚ, (0 < c → emojiFor c = "🔺") ∧ (c < 0 → emojiFor c = "🔻") ∧
      (c = 0 → emojiFor c = "➖")) := by
  refine ⟨?_, by simp, fun name q => rfl, fun name => rfl, fun c => ?_⟩
  · rw [market_summary]
    cases md with
    | nil => rfl
    | cons nd rest => simp [marketLines_eq]
  · refine ⟨fun h => ?_, fun h => ?_, fun h => ?_⟩
    · simp [emojiFor, h]
    · rw [emojiFor, if_neg (by linarith), if_pos h]
    · simp [emojiFor, h]

/-- C3: for every reference date, `is_us_holiday_prev_close` is computed
by testing the most recent weekday strictly before the reference date
(walking backward, skipping Saturday and Sunday) for membership in the US
(NY) holiday calendar; for a Monday reference date the tested date is the
preceding Friday (`today - 3`), never the Sunday or Saturday. -/
theorem claim_C3_prev_close (kr us : Int → Option String) (today : Int) :
    ∃ prev : Int,
      findPrevWeekday today 3 1 = some prev ∧
      prev < today ∧ weekday prev < 5 ∧
      (∀ d : Int, prev < d → d < today → ¬ weekday d < 5) ∧
      check_holidays kr us today =
        some ((kr today).isSome, (us prev).isSome,
          (if (kr today).isSome then kr today else none),
          (if (us prev).isSome then us prev else none)) ∧
      (weekday today = 0 → prev = today - 3 ∧ weekday prev = 4) := by
  obtain ⟨prev, hfind, hlt, hwd, hbetween, hmon⟩ := findPrevWeekday_spec today
  refine ⟨prev, hfind, hlt, hwd, hbetween, ?_, ?_⟩
  · rw [check_holidays, hfind]
  · intro h
    refine ⟨hmon h, ?_⟩
    rw [hmon h]
    simp only [weekday] at h ⊢
    omega

/-- Witness evaluating C3 at a Monday reference date with empty holiday
calendars. -/
theorem claim_C3_prev_close_witness :
    ∃ prev : Int,
      findPrevWeekday 0 3 1 = some prev ∧
      prev < 0 ∧ weekday prev < 5 ∧
      (∀ d : Int, prev < d → d < 0 → ¬ weekday d < 5) ∧
      check_holidays (fun _ => none) (fun _ => none) 0 =
        some ((none : Option String).isSome, (none : Option String).isSome,
          (if (none : Option String).isSome then none else none),
          (if (none : Option String).isSome then none else none)) ∧
      (weekday 0 = 0 → prev = 0 - 3 ∧ weekday prev = 4) :=
  claim_C3_prev_close (fun _ => none) (fun _ => none) 0

/-- C10: the backward walk terminates for every reference date — fuel 3
(offset never exceeding 3) already finds a weekday, and any larger fuel
returns the same result. -/
theorem claim_C10_walk_terminates (today : Int) :
    (findPrevWeekday today 3 1).isSome = true ∧
    ∀ fuel : Nat, 3 ≤ fuel →
      findPrevWeekday today fuel 1 = findPrevWeekday today 3 1 := by
  obtain ⟨prev, hfind, -⟩ := findPrevWeekday_spec today
  refine ⟨by rw [hfind]; rfl, fun fuel hf => ?_⟩
  rw [hfind, findPrevWeekday_mono today 3 1 prev hfind fuel hf]

/-- Witness evaluating C10 at a concrete date and fuel. -/
theorem claim_C10_walk_terminates_witness :
    (findPrevWeekday 0 3 1).isSome = true ∧
    findPrevWeekday 0 7 1 = findPrevWeekday 0 3 1 :=
  ⟨(claim_C10_walk_terminates 0).1,
    (claim_C10_walk_terminates 0).2 7 (by norm_num)⟩

set_option maxRecDepth 4000 in
/-- C5: for mode WEEKDAY with `is_kr_holiday = true` and
`is_us_holiday = false`, the composed template contains the KR holiday
closure notice naming the KR holiday, the headline carries the holiday
name inline, the holiday-watchpoints slot appears, and (at a concrete date
and holiday name) the template contains no forecast-range content
(`예상 범위`) and no buy/hold/avoid strategy content (`매매 전략`,
`공격적 매수`, `관망/보유`, `주의/매도`). -/
theorem claim_C5_kr_holiday_template (today name : String) :
    (∃ pre post : String,
      prompt_content Mode.weekday false true (some name) none today =
        pre ++ krSection true (some name) ++ post) ∧
    krSection true (some name) =
      "\n    <b>🇰🇷 한국 증시 상황 (휴장: " ++ name ++
        ")</b>\n    - <b>오늘은 \u0027" ++ name ++
        "\u0027로 인해 한국 증시가 휴장합니다.</b>\n    - (Do NOT provide a specific forecast range or hot themes for trading today.)\n    - (Instead, briefly summarize the overall sentiment or recent trend leading into the holiday.)\n            " ∧
    (∃ pre post : String,
      prompt_content Mode.weekday false true (some name) none today =
        pre ++ extraSection true ++ post) ∧
    extraSection true =
      "\n    <b>💡 휴장일 체크 포인트</b>\n    - (Any major global events to watch during the holiday)\n            " ∧
    (∃ pre post : String,
      prompt_content Mode.weekday false true (some name) none today =
        pre ++ weekdayHeader today true (some name) ++ post) ∧
    weekdayHeader today true (some name) =
      "<b>📊 " ++ today ++ " 한국 증시 종합 전망 보고서" ++
        (" (국내 휴장: " ++ name ++ ")") ++ "</b>" ∧
    (¬ ("예상 범위".data <:+:
        (prompt_content Mode.weekday false true (some "신정") none
          "01/01(Wed)").data) ∧
     ¬ ("매매 전략".data <:+:
        (prompt_content Mode.weekday false true (some "신정") none
          "01/01(Wed)").data) ∧
     ¬ ("공격적 매수".data <:+:
        (prompt_content Mode.weekday false true (some "신정") none
          "01/01(Wed)").data) ∧
     ¬ ("관망/보유".data <:+:
        (prompt_content Mode.weekday false true (some "신정") none
          "01/01(Wed)").data) ∧
     ¬ ("주의/매도".data <:+:
        (prompt_content Mode.weekday false true (some "신정") none
          "01/01(Wed)").data)) := by
  refine ⟨?_, rfl, ?_, rfl, ?_, rfl, ?_, ?_, ?_, ?_, ?_⟩
  · refine ⟨"\n    " ++ weekdayHeader today true (some name) ++
      "\n    \n    " ++ usSection false none ++
      "\n    \n    ---\n    \n    " ++ "\n    \n    ",
      "\n    \n    ---\n    \n    " ++ extraSection true ++
      "\n    \n    <b>🎬 결론</b>\n    (One sentence summary)\n        ", ?_⟩
    simp [prompt_content, weekdayPromptContent, String.append_assoc,
      String.empty_append]
  · refine ⟨"\n    " ++ weekdayHeader today true (some name) ++
      "\n    \n    " ++ usSection false none ++
      "\n    \n    ---\n    \n    " ++ "\n    \n    " ++
      krSection true (some name) ++ "\n    \n    ---\n    \n    ",
      "\n    \n    <b>🎬 결론</b>\n    (One sentence summary)\n        ", ?_⟩
    simp [prompt_content, weekdayPromptContent, String.append_assoc,
      String.empty_append]
  · refine ⟨"\n    ",
      "\n    \n    " ++ usSection false none ++
      "\n    \n    ---\n    \n    " ++ "\n    \n    " ++
      krSection true (some name) ++ "\n    \n    ---\n    \n    " ++
      extraSection true ++
      "\n    \n    <b>🎬 결론</b>\n    (One sentence summary)\n        ", ?_⟩
    simp [prompt_content, weekdayPromptContent, String.append_assoc,
      String.empty_append]
  all_goals rw [promptC5_data]
  all_goals exact not_infix_flatten _ (by decide) _ (by decide)

/-- Witness evaluating C5's containment of the KR closure section at the
concrete date and holiday name. -/
theorem claim_C5_kr_holiday_template_witness :
    ∃ pre post : String,
      prompt_content Mode.weekday false true (some "신정") none
          "01/01(Wed)" =
        pre ++ krSection true (some "신정") ++ post :=
  (claim_C5_kr_holiday_template "01/01(Wed)" "신정").1

/-- C6: across all queries of a run, no two articles included in the news
context share a link; the included sequence is exactly the
first-occurrence-wins deduplication of the candidate stream, hence a
sublist of it (global discovery order preserved), and the output blob is
the concatenation of the included articles' renderings in that order. -/
theorem claim_C6_dedup (feed : String → Option (List NewsEntry))
    (scrape : String → Option String) (queries : List String) :
    (fetch_news_included feed scrape queries).Pairwise
      (fun a b => a.link ≠ b.link) ∧
    fetch_news_included feed scrape queries =
      dedupByLink (candidateStream feed queries) [] ∧
    (fetch_news_included feed scrape queries).Sublist
      (candidateStream feed queries) ∧
    fetch_news_context feed scrape queries =
      String.join ((fetch_news_included feed scrape queries).map
        (renderEntry scrape)) := by
  have hinc : fetch_news_included feed scrape queries =
      dedupByLink (candidateStream feed queries) [] := by
    rw [fetch_news_included, fetch_news_state_eq]
  have hctx : fetch_news_context feed scrape queries =
      String.join ((dedupByLink (candidateStream feed queries) []).map
        (renderEntry scrape)) := by
    rw [fetch_news_context, fetch_news_state_eq]
  exact ⟨hinc ▸ dedupByLink_pairwise _ _, hinc,
    hinc ▸ dedupByLink_sublist _ _, by rw [hctx, hinc]⟩

/-- C8 counterexample: in a concrete run where extraction fails for the
only candidate article, the article is included, but its publication date
does not occur anywhere in the news context — the fallback block carries
only title, link and the failure marker, contradicting the claim that the
article is included using its title, link **and publication date**. -/
theorem claim_C8_counterexample :
    entryC8 ∈ fetch_news_included feedC8 scrapeNone ["q"] ∧
    scrapeNone entryC8.link = none ∧
    ¬ (entryC8.published.data <:+:
        (fetch_news_context feedC8 scrapeNone ["q"]).data) := by
  refine ⟨by decide, rfl, by decide⟩

/-- C8 (amended): when content extraction fails for an article that passed
deduplication, the article is still included — inclusion does not depend
on the scraper at all — via the fallback block carrying its title, its
link and an explicit extraction-failure marker (but not its publication
date). -/
theorem claim_C8_extraction_fallback (feed : String → Option (List NewsEntry))
    (scrape : String → Option String) (queries : List String) (e : NewsEntry)
    (he : e ∈ fetch_news_included feed scrape queries)
    (hs : scrape e.link = none) :
    (renderFallback e).data <:+:
      (fetch_news_context feed scrape queries).data ∧
    renderFallback e =
      "\nTitle: " ++ e.title ++ "\nLink: " ++ e.link ++
        "\n(Content scraping failed)\n" ∧
    (∀ scrape' : String → Option String,
      fetch_news_included feed scrape' queries =
        fetch_news_included feed scrape queries) := by
  have hinc : fetch_news_included feed scrape queries =
      dedupByLink (candidateStream feed queries) [] := by
    rw [fetch_news_included, fetch_news_state_eq]
  have hctx : fetch_news_context feed scrape queries =
      String.join ((dedupByLink (candidateStream feed queries) []).map
        (renderEntry scrape)) := by
    rw [fetch_news_context, fetch_news_state_eq]
  rw [hinc] at he
  obtain ⟨l1, l2, hsplit⟩ := List.append_of_mem he
  have hrender : renderEntry scrape e = renderFallback e := by
    rw [renderEntry, hs]
  refine ⟨?_, by rw [renderFallback], fun scrape' => by
    rw [fetch_news_included, fetch_news_state_eq,
      fetch_news_included, fetch_news_state_eq]⟩
  rw [hctx, hsplit]
  refine ⟨(String.join (l1.map (renderEntry scrape))).data,
    (String.join (l2.map (renderEntry scrape))).data, ?_⟩
  simp [String.data_join, List.map_append, List.map_cons, hrender,
    List.append_assoc]

/-- Witness evaluating the amended C8 on a concrete failing run. -/
theorem claim_C8_extraction_fallback_witness :
    (renderFallback entryC8).data <:+:
      (fetch_news_context feedC8 scrapeNone ["q"]).data ∧
    renderFallback entryC8 =
      "\nTitle: " ++ entryC8.title ++ "\nLink: " ++ entryC8.link ++
        "\n(Content scraping failed)\n" ∧
    (∀ scrape' : String → Option String,
      fetch_news_included feedC8 scrape' ["q"] =
        fetch_news_included feedC8 scrapeNone ["q"]) :=
  claim_C8_extraction_fallback feedC8 scrapeNone ["q"] entryC8 (by decide) rfl

/-- Witness evaluating C7 at a concrete snapshot and a concrete change. -/
theorem claim_C7_market_summary_witness :
    market_summary [("KOSPI", none)] = "## Market Data Indices\n" ++
      (if ([("KOSPI", (none : Option Quote))]).isEmpty
       then "Data Unavailable\n"
       else String.join ([("KOSPI", (none : Option Quote))].map marketLine)) ∧
    ((0 : ℚ) < 1 ∧ emojiFor 1 = "🔺") :=
  ⟨(claim_C7_market_summary [("KOSPI", none)]).1,
    by norm_num,
    ((claim_C7_market_summary [("KOSPI", none)]).2.2.2.2 1).1 (by norm_num)⟩

end NewsReporter
